import Mathlib

/-!
Verification of the BCSPy session/subscription core: a shallow embedding of
`BCSPy/BCSPy.py` (credential store, token lifecycle, event bus, subscription
channels, response normalizer) together with proofs of the spec's testable
properties.
-/


/-! ## Decimal representation of naturals

The keyring chunk keys are built as `f'{username}{index}'`, i.e.
`username ++ toString index`.  The proofs need that distinct indices give
distinct keys, hence injectivity of `Nat.repr`. -/


/-- Numeric value of a decimal digit character. -/
def digitVal (c : Char) : Nat := c.toNat - 48

/-- Value of a list of decimal digit characters, most significant first. -/
def charsVal (l : List Char) : Nat := l.foldl (fun a c => 10 * a + digitVal c) 0

/-! ## Credential Store (keyring) model

The secure storage backend (python `keyring`) is an external capability with
operations `get_password`, `set_password`, `delete_password` keyed by
`(service, username)`.  We model an error-free store as a partial map.
`BCSPy.get_long_token_from_keyring`, `set_long_token_to_keyring` and
`clear_long_token_from_keyring` are translated from `BCSPy/BCSPy.py`; their
unbounded `while True` loops are given an explicit fuel argument. -/


/-- The keyring backend state: `(service, username) -> stored password`. -/
def Keyring : Type := String → String → Option String

/-- keyring.get_password(service, username). -/
def keyring_get_password (kr : Keyring) (service username : String) : Option String :=
  kr service username

/-- keyring.set_password(service, username, password). -/
def keyring_set_password (kr : Keyring) (service username password : String) : Keyring :=
  fun s u => if s = service ∧ u = username then some password else kr s u

/-- keyring.delete_password(service, username). -/
def keyring_delete_password (kr : Keyring) (service username : String) : Keyring :=
  fun s u => if s = service ∧ u = username then none else kr s u

/-- Key under which chunk `index` of the token is stored: `f'{username}{index}'`. -/
def token_key (username : String) (index : Nat) : String :=
  username ++ toString index

/-- Loop body of `get_long_token_from_keyring`: collect chunks at
`username0, username1, ...` until the first missing index. -/
def getLoop (kr : Keyring) (service username : String) : Nat → Nat → List String
  | _, 0 => []
  | index, fuel + 1 =>
    match keyring_get_password kr service (token_key username index) with
    | none => []
    | some token_part => token_part :: getLoop kr service username (index + 1) fuel

/-- BCSPy.get_long_token_from_keyring: read chunks `0, 1, ...` until a missing
index; `None` if no chunk was found, otherwise the concatenation. -/
def get_long_token_from_keyring (kr : Keyring) (service username : String)
    (fuel : Nat) : Option String :=
  let token_parts := getLoop kr service username 0 fuel
  if token_parts = [] then none else some (String.join token_parts)

/-- Loop body of `clear_long_token_from_keyring`: delete chunks at
`username0, username1, ...` until the first missing index. -/
def clearLoop (kr : Keyring) (service username : String) : Nat → Nat → Keyring
  | _, 0 => kr
  | index, fuel + 1 =>
    match keyring_get_password kr service (token_key username index) with
    | none => kr
    | some _ =>
      clearLoop (keyring_delete_password kr service (token_key username index))
        service username (index + 1) fuel

/-- BCSPy.clear_long_token_from_keyring. -/
def clear_long_token_from_keyring (kr : Keyring) (service username : String)
    (fuel : Nat) : Keyring :=
  clearLoop kr service username 0 fuel

/-- Python `[token[i:i+size] for i in range(0, len(token), size)]` on the
character list of the token. -/
def token_chunks (size : Nat) (l : List Char) : List (List Char) :=
  if _h : size = 0 ∨ l = [] then []
  else l.take size :: token_chunks size (l.drop size)
termination_by l.length
decreasing_by
  simp only [List.length_drop]
  have h1 : size ≠ 0 ∧ l ≠ [] := by tauto
  have h2 : 0 < l.length := List.length_pos.mpr h1.2
  omega

/-- Loop body of `set_long_token_to_keyring`: store each chunk under its
indexed key (`for index, token_part in enumerate(token_parts)`). -/
def writeChunks (kr : Keyring) (service username : String) :
    List String → Nat → Keyring
  | [], _ => kr
  | token_part :: rest, index =>
    writeChunks (keyring_set_password kr service (token_key username index) token_part)
      service username rest (index + 1)

/-- BCSPy.set_long_token_to_keyring: clear prior chunks, split the token into
chunks of `password_split_size` characters and store them under indexed keys. -/
def set_long_token_to_keyring (kr : Keyring) (service username token : String)
    (password_split_size : Nat) (clear_fuel : Nat) : Keyring :=
  let kr1 := clear_long_token_from_keyring kr service username clear_fuel
  let token_parts := (token_chunks password_split_size token.data).map
    (fun part => String.mk part)
  writeChunks kr1 service username token_parts 0

/-! ## Request/Response Normalizer

`BCSPy._check_result` inspects a `requests.Response`.  The raw response is
absent when the transport failed (`Option.none`); a present response carries a
status code and the UTF-8 decoded body.  The truthiness test `if not response`
follows `requests.Response.__bool__`, which is `status_code < 400`.  JSON
decoding (`json.loads`) is an external stdlib function and is passed in as a
parameter returning `none` exactly when it raises `JSONDecodeError`. -/


/-- A `requests.Response`: status code and UTF-8 decoded body. -/
structure HttpResponse where
  status_code : Nat
  content : String

/-- Truthiness of a `requests.Response` (`__bool__` is `ok`, i.e.
`status_code < 400`). -/
def HttpResponse.ok (r : HttpResponse) : Bool := r.status_code < 400

/-- Outcome of `_check_result`: `none`, a parsed JSON value, or the raw text. -/
def check_result {J : Type} (loads : String → Option J)
    (response : Option HttpResponse) : Option (J ⊕ String) :=
  match response with
  | none => none
  | some r =>
    if ¬ r.ok then none
    else if r.status_code ≠ 200 then none
    else
      match loads r.content with
      | some parsed => some (Sum.inl parsed)
      | none => some (Sum.inr r.content)

/-! ## Token Lifecycle Manager

`BCSPy.get_access_token` caches an access token in `self.access_token` /
`self.access_token_expired`.  The refresh POST to the token endpoint is an
external effect; its outcome (SSL error, or a response with a status code and
a parsed JSON body `{access_token, expires_in}`) is passed in explicitly.
Times are UNIX seconds as Python ints. -/


/-- The mutable session fields of `BCSPy` relevant to authorization. -/
structure Session where
  refresh_token : String
  access_token : Option String
  access_token_expired : Int
deriving DecidableEq

/-- Parsed JSON body of a successful token-endpoint response. -/
structure TokenResponseBody where
  access_token : String
  expires_in : Int
deriving DecidableEq

/-- Outcome of the refresh POST: an `SSLError`, or a response carrying a
status code and body. -/
inductive RefreshOutcome where
  | sslError
  | response (status_code : Nat) (body : TokenResponseBody)
deriving DecidableEq

/-- Result of one `get_access_token` call: returned value, updated session
fields, and whether a refresh request was issued on the network. -/
structure AccessTokenResult where
  token : Option String
  session : Session
  refresh_requested : Bool
deriving DecidableEq

/-- BCSPy.get_access_token: return the cached token if present and unexpired,
otherwise issue the refresh request and handle its outcome. -/
def get_access_token (st : Session) (now : Int) (net : RefreshOutcome) :
    AccessTokenResult :=
  if st.access_token = none ∨ now ≥ st.access_token_expired then
    match net with
    | RefreshOutcome.sslError =>
      { token := none
        session := { st with access_token := none, access_token_expired := 0 }
        refresh_requested := true }
    | RefreshOutcome.response status_code body =>
      if status_code ≠ 200 then
        { token := none
          session := { st with access_token := none, access_token_expired := 0 }
          refresh_requested := true }
      else
        { token := some body.access_token
          session :=
            { st with
              access_token := some body.access_token
              access_token_expired := now + body.expires_in }
          refresh_requested := true }
  else
    { token := st.access_token, session := st, refresh_requested := false }

/-! ## Event Bus

The `Event` class holds `self._callbacks`, a python `set` of callback
references.  Callbacks are modelled as values of a type `α` with decidable
equality; the set is a `Finset α`.  `trigger(*args)` calls every callback in
the set once with the given arguments; since set iteration order is
unspecified, a trigger is modelled as the multiset of invocations
`(callback, argument)` it performs. -/


/-- The `Event` publish/subscribe primitive. -/
structure Event (α : Type) [DecidableEq α] where
  callbacks : Finset α

/-- Event.subscribe: add the callback to the set (duplicates collapse). -/
def Event.subscribe {α : Type} [DecidableEq α] (e : Event α) (callback : α) : Event α :=
  { callbacks := insert callback e.callbacks }

/-- Event.unsubscribe: `discard` the callback (no error when absent). -/
def Event.unsubscribe {α : Type} [DecidableEq α] (e : Event α) (callback : α) : Event α :=
  { callbacks := e.callbacks.erase callback }

/-- Event.trigger: the multiset of invocations performed — each registered
callback called once with the argument. -/
def Event.trigger {α β : Type} [DecidableEq α] (e : Event α) (x : β) : Multiset (α × β) :=
  e.callbacks.val.map (fun callback => (callback, x))

/-! ## Subscription Channel Manager

`BCSPy` owns nine WebSocket channels, each held in its own `self.ws_*`
attribute with its own `Event` bus.  Connections are modelled by handles
numbered by a counter (`connect` hands out the next handle); `ws.send` is
modelled by appending `(handle, frame)` to a log of sent frames, and
`ws.close` by appending the handle to a log of closed connections.  Market
data control frames are the JSON dicts built in `subscribe_quotes`,
`subscribe_last_candles`, `subscribe_order_book` and `subscribe_trades`. -/


/-- An instrument filter entry `{'classCode': ..., 'ticker': ...}`. -/
structure Instrument where
  classCode : String
  ticker : String
deriving DecidableEq

/-- A market-data control frame; `depth` and `timeFrame` are present only for
the channels that include them in the request dict. -/
structure WsRequest where
  subscribeType : Int
  dataType : Nat
  instruments : List Instrument
  depth : Option Int
  timeFrame : Option String
deriving DecidableEq

/-- Frame sent by `subscribe_quotes` (`dataType` 3). -/
def quotes_request (subscribe_type : Int) (instruments : List Instrument) : WsRequest :=
  { subscribeType := subscribe_type, dataType := 3, instruments := instruments
    depth := none, timeFrame := none }

/-- Frame sent by `subscribe_last_candles` (`dataType` 1, with `timeFrame`). -/
def last_candles_request (subscribe_type : Int) (instruments : List Instrument)
    (time_frame : String) : WsRequest :=
  { subscribeType := subscribe_type, dataType := 1, instruments := instruments
    depth := none, timeFrame := some time_frame }

/-- Frame sent by `subscribe_order_book` (`dataType` 0, with `depth`). -/
def order_book_request (subscribe_type : Int) (instruments : List Instrument)
    (depth : Int) : WsRequest :=
  { subscribeType := subscribe_type, dataType := 0, instruments := instruments
    depth := some depth, timeFrame := none }

/-- Frame sent by `subscribe_trades` (`dataType` 2). -/
def trades_request (subscribe_type : Int) (instruments : List Instrument) : WsRequest :=
  { subscribeType := subscribe_type, dataType := 2, instruments := instruments
    depth := none, timeFrame := none }

/-- The `BCSPy` instance state for the nine subscription channels, plus the
instrumentation of the external WebSocket effects (handles opened, frames
sent, connections closed). -/
structure BCSPyState (α : Type) [DecidableEq α] where
  ws_limits : Option Nat
  ws_portfolio : Option Nat
  ws_executions : Option Nat
  ws_transactions : Option Nat
  ws_quotes : Option Nat
  ws_last_candle : Option Nat
  ws_order_book : Option Nat
  ws_trades : Option Nat
  ws_margins : Option Nat
  on_limit : Event α
  on_portfolio : Event α
  on_execution : Event α
  on_transaction : Event α
  on_quote : Event α
  on_candle : Event α
  on_order_book : Event α
  on_trade : Event α
  on_margin : Event α
  next_conn : Nat
  frames_sent : List (Nat × WsRequest)
  closed_conns : List Nat

/-- BCSPy.subscribe_quotes: connect if not connected, then send the filter
frame on the (possibly fresh) connection. -/
def subscribe_quotes {α : Type} [DecidableEq α] (st : BCSPyState α)
    (subscribe_type : Int) (instruments : List Instrument) : BCSPyState α :=
  let st1 := if st.ws_quotes = none then
    { st with ws_quotes := some st.next_conn, next_conn := st.next_conn + 1 } else st
  match st1.ws_quotes with
  | some conn =>
    { st1 with frames_sent :=
        st1.frames_sent ++ [(conn, quotes_request subscribe_type instruments)] }
  | none => st1

/-- BCSPy.subscribe_last_candles. -/
def subscribe_last_candles {α : Type} [DecidableEq α] (st : BCSPyState α)
    (subscribe_type : Int) (instruments : List Instrument) (time_frame : String) :
    BCSPyState α :=
  let st1 := if st.ws_last_candle = none then
    { st with ws_last_candle := some st.next_conn, next_conn := st.next_conn + 1 } else st
  match st1.ws_last_candle with
  | some conn =>
    { st1 with frames_sent :=
        st1.frames_sent ++ [(conn, last_candles_request subscribe_type instruments time_frame)] }
  | none => st1

/-- BCSPy.subscribe_order_book. -/
def subscribe_order_book {α : Type} [DecidableEq α] (st : BCSPyState α)
    (subscribe_type : Int) (instruments : List Instrument) (depth : Int) :
    BCSPyState α :=
  let st1 := if st.ws_order_book = none then
    { st with ws_order_book := some st.next_conn, next_conn := st.next_conn + 1 } else st
  match st1.ws_order_book with
  | some conn =>
    { st1 with frames_sent :=
        st1.frames_sent ++ [(conn, order_book_request subscribe_type instruments depth)] }
  | none => st1

/-- BCSPy.subscribe_trades. -/
def subscribe_trades {α : Type} [DecidableEq α] (st : BCSPyState α)
    (subscribe_type : Int) (instruments : List Instrument) : BCSPyState α :=
  let st1 := if st.ws_trades = none then
    { st with ws_trades := some st.next_conn, next_conn := st.next_conn + 1 } else st
  match st1.ws_trades with
  | some conn =>
    { st1 with frames_sent :=
        st1.frames_sent ++ [(conn, trades_request subscribe_type instruments)] }
  | none => st1

/-- BCSPy.unsubscribe_limits: close and clear the handle when connected. -/
def unsubscribe_limits {α : Type} [DecidableEq α] (st : BCSPyState α) : BCSPyState α :=
  match st.ws_limits with
  | none => st
  | some conn =>
    { st with ws_limits := none, closed_conns := st.closed_conns ++ [conn] }

/-- BCSPy.unsubscribe_portfolio. -/
def unsubscribe_portfolio {α : Type} [DecidableEq α] (st : BCSPyState α) : BCSPyState α :=
  match st.ws_portfolio with
  | none => st
  | some conn =>
    { st with ws_portfolio := none, closed_conns := st.closed_conns ++ [conn] }

/-- BCSPy.unsubscribe_executions. -/
def unsubscribe_executions {α : Type} [DecidableEq α] (st : BCSPyState α) : BCSPyState α :=
  match st.ws_executions with
  | none => st
  | some conn =>
    { st with ws_executions := none, closed_conns := st.closed_conns ++ [conn] }

/-- BCSPy.unsubscribe_transactions. -/
def unsubscribe_transactions {α : Type} [DecidableEq α] (st : BCSPyState α) : BCSPyState α :=
  match st.ws_transactions with
  | none => st
  | some conn =>
    { st with ws_transactions := none, closed_conns := st.closed_conns ++ [conn] }

/-- BCSPy.unsubscribe_quotes. -/
def unsubscribe_quotes {α : Type} [DecidableEq α] (st : BCSPyState α) : BCSPyState α :=
  match st.ws_quotes with
  | none => st
  | some conn =>
    { st with ws_quotes := none, closed_conns := st.closed_conns ++ [conn] }

/-- BCSPy.unsubscribe_last_candles. -/
def unsubscribe_last_candles {α : Type} [DecidableEq α] (st : BCSPyState α) : BCSPyState α :=
  match st.ws_last_candle with
  | none => st
  | some conn =>
    { st with ws_last_candle := none, closed_conns := st.closed_conns ++ [conn] }

/-- BCSPy.unsubscribe_order_book. -/
def unsubscribe_order_book {α : Type} [DecidableEq α] (st : BCSPyState α) : BCSPyState α :=
  match st.ws_order_book with
  | none => st
  | some conn =>
    { st with ws_order_book := none, closed_conns := st.closed_conns ++ [conn] }

/-- BCSPy.unsubscribe_trades. -/
def unsubscribe_trades {α : Type} [DecidableEq α] (st : BCSPyState α) : BCSPyState α :=
  match st.ws_trades with
  | none => st
  | some conn =>
    { st with ws_trades := none, closed_conns := st.closed_conns ++ [conn] }

/-- BCSPy.unsubscribe_margins. -/
def unsubscribe_margins {α : Type} [DecidableEq α] (st : BCSPyState α) : BCSPyState α :=
  match st.ws_margins with
  | none => st
  | some conn =>
    { st with ws_margins := none, closed_conns := st.closed_conns ++ [conn] }

/-- A `BCSPy` instance as built by `__init__`: no channel connected, fresh
buses, no effects performed yet. -/
def init_state : BCSPyState Nat :=
  { ws_limits := none, ws_portfolio := none, ws_executions := none
    ws_transactions := none, ws_quotes := none, ws_last_candle := none
    ws_order_book := none, ws_trades := none, ws_margins := none
    on_limit := { callbacks := ∅ }, on_portfolio := { callbacks := ∅ }
    on_execution := { callbacks := ∅ }, on_transaction := { callbacks := ∅ }
    on_quote := { callbacks := ∅ }, on_candle := { callbacks := ∅ }
    on_order_book := { callbacks := ∅ }, on_trade := { callbacks := ∅ }
    on_margin := { callbacks := ∅ }
    next_conn := 0, frames_sent := [], closed_conns := [] }

/-! ## Receive loop (`_subscribe_thread`)

The receive loop blocks on `ws.recv()`, parses each frame as JSON and
triggers the channel's bus; it returns on `ConnectionClosed` or on any other
exception (e.g. a JSON parse error).  The wire input is a list of receive
outcomes; the loop returns the instance state it leaves behind together with
the multiset of callback invocations it performed.  The loop body contains no
assignment to any `self.ws_*` attribute. -/


/-- One outcome of `ws.recv()` followed by `json.loads`. -/
inductive RecvEvent (J : Type) where
  | data (parsed : J)
  | parseError
  | closed

/-- BCSPy._subscribe_thread: process receive outcomes until the connection
closes, an error occurs, or the wire input is exhausted. -/
def subscribe_thread {α J : Type} [DecidableEq α] (bus : Event α) (st : BCSPyState α) :
    List (RecvEvent J) → BCSPyState α × Multiset (α × J)
  | [] => (st, 0)
  | RecvEvent.data parsed :: rest =>
    let r := subscribe_thread bus st rest
    (r.1, Event.trigger bus parsed + r.2)
  | RecvEvent.parseError :: _ => (st, 0)
  | RecvEvent.closed :: _ => (st, 0)

/-! ## Order operations and their default `client_order_id`

`create_order`, `cancel_order` and `edit_order` each declare
`client_order_id: str = str(uuid4())` in their `def` line, so each default is
one `uuid4()` draw evaluated once when the class body is executed, in source
order.  The process's uuid generator is modelled as a stream of draws; an
omitted `client_order_id` argument is `Option.none`.  Prices are an abstract
type `P` (Python floats). -/


/-- The three defaults fixed at class-definition time. -/
structure ClassDefaults where
  create_order_client_order_id : String
  cancel_order_client_order_id : String
  edit_order_client_order_id : String

/-- Evaluating the class body draws one uuid per `def` line, in source order:
`create_order`, then `cancel_order`, then `edit_order`. -/
def class_defaults (uuid4 : Nat → String) : ClassDefaults :=
  { create_order_client_order_id := uuid4 0
    cancel_order_client_order_id := uuid4 1
    edit_order_client_order_id := uuid4 2 }

/-- The JSON payload posted by `create_order`; `price` is included only for
limit orders (`order_type == 2`). -/
structure CreateOrderParams (P : Type) where
  clientOrderId : String
  side : Int
  orderType : Int
  orderQuantity : Int
  ticker : String
  classCode : String
  price : Option P

/-- The JSON payload posted by `cancel_order` (the original order id goes
into the URL, not the payload). -/
structure CancelOrderParams where
  clientOrderId : String

/-- The JSON payload posted by `edit_order`. -/
structure EditOrderParams (P : Type) where
  clientOrderId : String
  price : P
  orderQuantity : Int
  classCode : String

/-- BCSPy.create_order: build the order payload. -/
def create_order_params {P : Type} (d : ClassDefaults) (side order_type : Int)
    (order_quantity : Int) (ticker class_code : String) (price : Option P)
    (client_order_id : Option String) : CreateOrderParams P :=
  { clientOrderId := client_order_id.getD d.create_order_client_order_id
    side := side, orderType := order_type, orderQuantity := order_quantity
    ticker := ticker, classCode := class_code
    price := if order_type = 2 then price else none }

/-- BCSPy.cancel_order: build the cancel payload. -/
def cancel_order_params (d : ClassDefaults) (original_client_order_id : String)
    (client_order_id : Option String) : CancelOrderParams :=
  { clientOrderId := client_order_id.getD d.cancel_order_client_order_id }

/-- BCSPy.edit_order: build the edit payload. -/
def edit_order_params {P : Type} (d : ClassDefaults) (original_client_order_id : String)
    (price : P) (order_quantity : Int) (class_code : String)
    (client_order_id : Option String) : EditOrderParams P :=
  { clientOrderId := client_order_id.getD d.edit_order_client_order_id
    price := price, orderQuantity := order_quantity, classCode := class_code }

/-! ## Theorems: Decimal representation of naturals -/

theorem charsVal_foldl (l : List Char) : ∀ a : Nat,
    l.foldl (fun a c => 10 * a + digitVal c) a = a * 10 ^ l.length + charsVal l := by
  induction l with
  | nil => intro a; simp [charsVal]
  | cons c t ih =>
    intro a
    have h1 : (c :: t).foldl (fun a c => 10 * a + digitVal c) a
        = t.foldl (fun a c => 10 * a + digitVal c) (10 * a + digitVal c) := rfl
    have h2 : charsVal (c :: t)
        = t.foldl (fun a c => 10 * a + digitVal c) (10 * 0 + digitVal c) := rfl
    rw [h1, ih (10 * a + digitVal c), h2, ih (10 * 0 + digitVal c)]
    simp [List.length_cons, pow_succ]
    ring

theorem toDigitsCore_acc (f : Nat) : ∀ (n : Nat) (acc : List Char),
    Nat.toDigitsCore 10 f n acc = Nat.toDigitsCore 10 f n [] ++ acc := by
  induction f with
  | zero => intro n acc; simp [Nat.toDigitsCore]
  | succ f ih =>
    intro n acc
    simp only [Nat.toDigitsCore]
    by_cases h : n / 10 = 0
    · simp [h]
    · simp only [h, if_false]
      rw [ih (n / 10) (Nat.digitChar (n % 10) :: acc), ih (n / 10) [Nat.digitChar (n % 10)]]
      simp

theorem digitVal_digitChar : ∀ d : Nat, d < 10 → digitVal (Nat.digitChar d) = d := by decide

theorem charsVal_toDigitsCore (f : Nat) : ∀ n : Nat, n < 10 ^ f →
    charsVal (Nat.toDigitsCore 10 f n []) = n := by
  induction f with
  | zero =>
    intro n hn
    interval_cases n
    rfl
  | succ f ih =>
    intro n hn
    simp only [Nat.toDigitsCore]
    by_cases h : n / 10 = 0
    · simp only [h, if_true]
      have hlt : n < 10 := by omega
      have : charsVal [Nat.digitChar (n % 10)] = digitVal (Nat.digitChar (n % 10)) := by
        simp [charsVal]
      rw [this, digitVal_digitChar (n % 10) (Nat.mod_lt n (by omega))]
      omega
    · simp only [h, if_false]
      rw [toDigitsCore_acc f (n / 10) [Nat.digitChar (n % 10)]]
      have hdiv : n / 10 < 10 ^ f := by
        rw [Nat.div_lt_iff_lt_mul (show 0 < 10 by omega)]
        calc n < 10 ^ (f + 1) := hn
        _ = 10 ^ f * 10 := by rw [pow_succ]
      have hval := ih (n / 10) hdiv
      unfold charsVal
      rw [List.foldl_append]
      have : List.foldl (fun a c => 10 * a + digitVal c) 0 (Nat.toDigitsCore 10 f (n / 10) [])
          = charsVal (Nat.toDigitsCore 10 f (n / 10) []) := rfl
      rw [this, hval]
      simp [charsVal, digitVal_digitChar (n % 10) (Nat.mod_lt n (by omega))]
      omega

theorem charsVal_repr (n : Nat) : charsVal (Nat.repr n).data = n := by
  have hlt : n < 10 ^ (n + 1) :=
    lt_of_lt_of_le (Nat.lt_pow_self (by omega) n) (Nat.pow_le_pow_right (by omega) (by omega))
  have : (Nat.repr n).data = Nat.toDigitsCore 10 (n + 1) n [] := rfl
  rw [this]
  exact charsVal_toDigitsCore (n + 1) n hlt

theorem nat_repr_injective {m n : Nat} (h : Nat.repr m = Nat.repr n) : m = n := by
  have := congrArg (fun s => charsVal s.data) h
  simpa [charsVal_repr] using this

/-! ## Theorems: Credential store round-trip lemmas -/

theorem string_append_data (a b : String) : (a ++ b).data = a.data ++ b.data := by
  cases a; cases b; rfl

theorem string_mk_data (s : String) : String.mk s.data = s := rfl

theorem token_key_injective (username : String) {i j : Nat}
    (h : token_key username i = token_key username j) : i = j := by
  unfold token_key at h
  have hd := congrArg String.data h
  rw [string_append_data, string_append_data] at hd
  have hrepr : (toString i).data = (toString j).data :=
    List.append_cancel_left hd
  have heq : toString i = toString j := by
    have h1 := congrArg String.mk hrepr
    rwa [string_mk_data, string_mk_data] at h1
  exact nat_repr_injective heq

theorem token_chunks_flatten (size : Nat) (hs : size ≠ 0) (l : List Char) :
    (token_chunks size l).flatten = l := by
  rw [token_chunks]
  by_cases h : size = 0 ∨ l = []
  · have hl : l = [] := by tauto
    simp [h, hl]
  · rw [dif_neg h, List.flatten_cons, token_chunks_flatten size hs (l.drop size)]
    exact List.take_append_drop size l
termination_by l.length
decreasing_by
  simp only [List.length_drop]
  have h1 : size ≠ 0 ∧ l ≠ [] := by tauto
  have h2 : 0 < l.length := List.length_pos.mpr h1.2
  omega

theorem string_join_map_mk (ll : List (List Char)) :
    String.join (ll.map (fun part => String.mk part)) = String.mk ll.flatten := by
  have general : ∀ (ll : List (List Char)) (a : List Char),
      List.foldl (fun r s => r ++ s) (String.mk a) (ll.map (fun part => String.mk part))
        = String.mk (a ++ ll.flatten) := by
    intro ll
    induction ll with
    | nil => intro a; simp
    | cons h t ih =>
      intro a
      have hstep : String.mk a ++ String.mk h = String.mk (a ++ h) := rfl
      simp only [List.map_cons, List.foldl_cons, hstep, ih, List.flatten_cons,
        List.append_assoc]
  have hmain := general ll []
  simpa [String.join] using hmain

theorem keyring_get_set_same (kr : Keyring) (service username password : String) :
    keyring_get_password (keyring_set_password kr service username password)
      service username = some password := by
  unfold keyring_get_password keyring_set_password
  simp

theorem keyring_get_set_other (kr : Keyring) (service username password u : String)
    (h : u ≠ username) :
    keyring_get_password (keyring_set_password kr service username password) service u
      = keyring_get_password kr service u := by
  unfold keyring_get_password keyring_set_password
  have hc : ¬ (service = service ∧ u = username) := by
    intro hc
    exact h hc.2
  rw [if_neg hc]

theorem writeChunks_lookup (service username : String) (chunks : List String) :
    ∀ (index : Nat) (kr : Keyring) (i : Nat),
    keyring_get_password (writeChunks kr service username chunks index) service
        (token_key username i)
      = if index ≤ i ∧ i < index + chunks.length then chunks[i - index]?
        else keyring_get_password kr service (token_key username i) := by
  induction chunks with
  | nil =>
    intro index kr i
    have hc : ¬ (index ≤ i ∧ i < index + List.length ([] : List String)) := by
      simp only [List.length_nil]
      omega
    rw [writeChunks, if_neg hc]
  | cons p t ih =>
    intro index kr i
    simp only [writeChunks]
    rw [ih (index + 1) (keyring_set_password kr service (token_key username index) p) i]
    by_cases hcase : i = index
    · subst hcase
      have h1 : ¬ (i + 1 ≤ i ∧ i < i + 1 + t.length) := by omega
      have h2 : i ≤ i ∧ i < i + (p :: t).length := by
        simp only [List.length_cons]
        omega
      rw [if_neg h1, if_pos h2,
        keyring_get_set_same kr service (token_key username i) p]
      simp
    · have hset := keyring_get_set_other kr service (token_key username index) p
        (token_key username i)
        (fun hc => hcase (token_key_injective username hc))
      by_cases h1 : index + 1 ≤ i ∧ i < index + 1 + t.length
      · have h2 : index ≤ i ∧ i < index + (p :: t).length := by
          simp only [List.length_cons]
          omega
        rw [if_pos h1, if_pos h2]
        have hsub : i - index = (i - (index + 1)) + 1 := by omega
        rw [hsub]
        simp
      · have h2 : ¬ (index ≤ i ∧ i < index + (p :: t).length) := by
          simp only [List.length_cons]
          omega
        rw [if_neg h1, if_neg h2, hset]

theorem getLoop_spec (kr : Keyring) (service username : String) (parts : List String) :
    ∀ (index fuel : Nat), parts.length < fuel →
    (∀ j : Nat, keyring_get_password kr service (token_key username (index + j)) = parts[j]?) →
    getLoop kr service username index fuel = parts := by
  induction parts with
  | nil =>
    intro index fuel hfuel hread
    match fuel, hfuel with
    | fuel + 1, _ =>
      have h0 := hread 0
      simp only [Nat.add_zero, List.getElem?_nil] at h0
      simp [getLoop, h0]
  | cons p t ih =>
    intro index fuel hfuel hread
    match fuel, hfuel with
    | fuel + 1, hfuel =>
      have h0 := hread 0
      simp only [Nat.add_zero, List.getElem?_cons_zero] at h0
      simp only [getLoop, h0]
      rw [ih (index + 1) fuel (by simp only [List.length_cons] at hfuel; omega)]
      intro j
      have hj := hread (j + 1)
      rw [show index + (j + 1) = index + 1 + j by omega] at hj
      simpa using hj

theorem keyring_get_delete (kr : Keyring) (service username u : String) :
    keyring_get_password (keyring_delete_password kr service username) service u
      = if u = username then none else keyring_get_password kr service u := by
  unfold keyring_get_password keyring_delete_password
  by_cases h : u = username
  · simp [h]
  · have hc : ¬ (service = service ∧ u = username) := by
      intro hc
      exact h hc.2
    rw [if_neg hc, if_neg h]

theorem clearLoop_clears (service username : String) : ∀ (fuel : Nat) (kr : Keyring)
    (index b : Nat), b ≤ fuel →
    keyring_get_password kr service (token_key username (index + b)) = none →
    (∀ i j : Nat, index ≤ i → i ≤ j →
      keyring_get_password kr service (token_key username i) = none →
      keyring_get_password kr service (token_key username j) = none) →
    (∀ i : Nat, i < index → keyring_get_password kr service (token_key username i) = none) →
    ∀ i : Nat, keyring_get_password (clearLoop kr service username index fuel) service
      (token_key username i) = none := by
  intro fuel
  induction fuel with
  | zero =>
    intro kr index b hb hmiss hcontig hbelow i
    have hb0 : b = 0 := by omega
    subst hb0
    simp only [Nat.add_zero] at hmiss
    simp only [clearLoop]
    by_cases hi : i < index
    · exact hbelow i hi
    · exact hcontig index i (Nat.le_refl index) (by omega) hmiss
  | succ fuel ih =>
    intro kr index b hb hmiss hcontig hbelow i
    simp only [clearLoop]
    cases hidx : keyring_get_password kr service (token_key username index) with
    | none =>
      by_cases hi : i < index
      · exact hbelow i hi
      · exact hcontig index i (Nat.le_refl index) (by omega) hidx
    | some part =>
      have hbpos : b ≠ 0 := by
        intro hb0
        subst hb0
        simp only [Nat.add_zero] at hmiss
        rw [hmiss] at hidx
        exact Option.noConfusion hidx
      apply ih (keyring_delete_password kr service (token_key username index))
        (index + 1) (b - 1) (by omega)
      · rw [keyring_get_delete]
        by_cases hk : token_key username (index + 1 + (b - 1)) = token_key username index
        · simp [hk]
        · rw [if_neg hk, show index + 1 + (b - 1) = index + b by omega]
          exact hmiss
      · intro i1 j1 hi1 hij h1
        rw [keyring_get_delete] at h1 ⊢
        by_cases hkj : token_key username j1 = token_key username index
        · simp [hkj]
        · rw [if_neg hkj]
          have hki : token_key username i1 ≠ token_key username index := by
            intro hk
            have := token_key_injective username hk
            omega
          rw [if_neg hki] at h1
          exact hcontig i1 j1 (by omega) hij h1
      · intro i1 hi1
        rw [keyring_get_delete]
        by_cases hk : token_key username i1 = token_key username index
        · simp [hk]
        · rw [if_neg hk]
          have : i1 < index := by
            have : i1 ≠ index := fun hc => hk (congrArg (token_key username) hc)
            omega
          exact hbelow i1 this

/-- C1 counterexample input: the round trip on the empty secret.  Saving `""`
stores no chunks, so loading finds no chunk 0 and returns `None`, not `""`. -/
theorem roundtrip_fails_on_empty_secret :
    get_long_token_from_keyring
      (set_long_token_to_keyring (fun _ _ => none) "BCSPy" "refresh_token" "" 500 1)
      "BCSPy" "refresh_token" 1 ≠ some "" := by
  have hchunks : token_chunks 500 ("" : String).data = [] := by
    rw [token_chunks]
    simp
  simp [get_long_token_from_keyring, set_long_token_to_keyring,
    clear_long_token_from_keyring, clearLoop, writeChunks, hchunks, getLoop,
    keyring_get_password]

/-- C1 (amended): for every nonempty secret and chunk size `c > 0`, over a
store whose existing chunk set for the key satisfies the contiguity invariant and is
bounded, save followed by load returns the secret exactly. -/
theorem set_get_long_token_roundtrip (kr : Keyring) (service username token : String)
    (size : Nat) (hsize : size ≠ 0) (htoken : token ≠ "")
    (B : Nat)
    (hcontig : ∀ i j : Nat, i ≤ j →
      keyring_get_password kr service (token_key username i) = none →
      keyring_get_password kr service (token_key username j) = none)
    (hB : keyring_get_password kr service (token_key username B) = none)
    (clear_fuel get_fuel : Nat) (hcf : B ≤ clear_fuel)
    (hgf : (token_chunks size token.data).length < get_fuel) :
    get_long_token_from_keyring
      (set_long_token_to_keyring kr service username token size clear_fuel)
      service username get_fuel = some token := by
  unfold set_long_token_to_keyring
  set parts := (token_chunks size token.data).map (fun part => String.mk part) with hparts
  set kr1 := clear_long_token_from_keyring kr service username clear_fuel with hkr1
  have hclear : ∀ i : Nat,
      keyring_get_password kr1 service (token_key username i) = none := by
    intro i
    rw [hkr1]
    unfold clear_long_token_from_keyring
    exact clearLoop_clears service username clear_fuel kr 0 B hcf
      (by rw [Nat.zero_add]; exact hB)
      (fun i j _ => hcontig i j) (fun i hi => absurd hi (Nat.not_lt_zero i)) i
  have hread : ∀ j : Nat,
      keyring_get_password (writeChunks kr1 service username parts 0) service
        (token_key username (0 + j)) = parts[j]? := by
    intro j
    rw [writeChunks_lookup service username parts 0 kr1 (0 + j)]
    by_cases h : 0 ≤ 0 + j ∧ 0 + j < 0 + parts.length
    · rw [if_pos h]
      simp
    · rw [if_neg h, hclear (0 + j)]
      have hlen : parts.length ≤ j := by omega
      rw [List.getElem?_eq_none (by simpa using hlen)]
  have hloop : getLoop (writeChunks kr1 service username parts 0) service username 0 get_fuel
      = parts :=
    getLoop_spec (writeChunks kr1 service username parts 0) service username parts 0
      get_fuel (by simpa [hparts] using hgf) hread
  have hne : parts ≠ [] := by
    rw [hparts]
    intro hc
    have : token_chunks size token.data = [] := by
      cases hx : token_chunks size token.data with
      | nil => rfl
      | cons a b =>
        rw [hx] at hc
        exact List.noConfusion hc
    have hflat := token_chunks_flatten size hsize token.data
    rw [this] at hflat
    have hdata : token.data = [] := hflat.symm
    apply htoken
    have := congrArg String.mk hdata
    rwa [string_mk_data] at this
  unfold get_long_token_from_keyring
  simp only [hloop, if_neg hne]
  rw [hparts, string_join_map_mk, token_chunks_flatten size hsize token.data,
    string_mk_data]

/-- Witness for the amended C1 round trip at a concrete input. -/
theorem set_get_long_token_roundtrip_witness :
    get_long_token_from_keyring
      (set_long_token_to_keyring (fun _ _ => none) "BCSPy" "refresh_token" "abc" 2 0)
      "BCSPy" "refresh_token" 3 = some "abc" := by
  have hlen : (token_chunks 2 ("abc" : String).data).length < 3 := by
    rw [token_chunks]
    simp only [String.data]
    rw [token_chunks]
    simp only [List.drop]
    rw [token_chunks]
    simp
  exact set_get_long_token_roundtrip (fun _ _ => none) "BCSPy" "refresh_token" "abc" 2
    (by omega) (by simp) 0 (fun _ _ _ _ => rfl) rfl 0 3 (Nat.le_refl 0) hlen

/-! ## Theorems: Request/Response Normalizer -/

/-- C2: `_check_result` yields exactly the three-way outcome: absent or falsy
response gives `none`; non-200 status gives `none`; a 200 response whose body
parses as JSON gives the parsed value; a 200 response whose body does not
parse gives the decoded body text. -/
theorem check_result_spec {J : Type} (loads : String → Option J)
    (response : Option HttpResponse) :
    (response = none → check_result loads response = none)
    ∧ (∀ r : HttpResponse, response = some r → r.ok = false →
        check_result loads response = none)
    ∧ (∀ r : HttpResponse, response = some r → r.status_code ≠ 200 →
        check_result loads response = none)
    ∧ (∀ (r : HttpResponse) (parsed : J), response = some r → r.status_code = 200 →
        loads r.content = some parsed →
        check_result loads response = some (Sum.inl parsed))
    ∧ (∀ r : HttpResponse, response = some r → r.status_code = 200 →
        loads r.content = none →
        check_result loads response = some (Sum.inr r.content)) := by
  refine ⟨?_, ?_, ?_, ?_, ?_⟩
  · intro h
    rw [h]
    rfl
  · intro r hr hok
    rw [hr]
    simp [check_result, hok]
  · intro r hr hstatus
    rw [hr]
    by_cases hok : r.ok
    · simp [check_result, hok, hstatus]
    · simp [check_result, hok]
  · intro r parsed hr h200 hloads
    rw [hr]
    have hok : r.ok = true := by
      simp [HttpResponse.ok, h200]
    simp [check_result, hok, h200, hloads]
  · intro r hr h200 hloads
    rw [hr]
    have hok : r.ok = true := by
      simp [HttpResponse.ok, h200]
    simp [check_result, hok, h200, hloads]

/-- Witness for C2: the four outcomes at concrete responses, with a toy JSON
parser that accepts only the body `"1"`. -/
theorem check_result_spec_witness :
    check_result (fun s => if s = "1" then some 1 else none) (none : Option HttpResponse)
        = none
    ∧ check_result (fun s => if s = "1" then some 1 else none)
        (some { status_code := 500, content := "oops" }) = none
    ∧ check_result (fun s => if s = "1" then some 1 else none)
        (some { status_code := 200, content := "1" }) = some (Sum.inl 1)
    ∧ check_result (fun s => if s = "1" then some 1 else none)
        (some { status_code := 200, content := "OK" }) = some (Sum.inr "OK") := by
  refine ⟨?_, ?_, ?_, ?_⟩
  · exact (check_result_spec (fun s => if s = "1" then some 1 else none) none).1 rfl
  · exact (check_result_spec (fun s => if s = "1" then some 1 else none)
      (some { status_code := 500, content := "oops" })).2.2.1
      { status_code := 500, content := "oops" } rfl (by decide)
  · exact (check_result_spec (fun s => if s = "1" then some 1 else none)
      (some { status_code := 200, content := "1" })).2.2.2.1
      { status_code := 200, content := "1" } 1 rfl rfl (by decide)
  · exact (check_result_spec (fun s => if s = "1" then some 1 else none)
      (some { status_code := 200, content := "OK" })).2.2.2.2
      { status_code := 200, content := "OK" } rfl rfl (by decide)

/-! ## Theorems: Token Lifecycle Manager -/

theorem get_access_token_token_cached (st : Session) (now : Int) (net : RefreshOutcome)
    (t : String) (h : (get_access_token st now net).token = some t) :
    (get_access_token st now net).session.access_token = some t := by
  unfold get_access_token at h ⊢
  by_cases hc : st.access_token = none ∨ now ≥ st.access_token_expired
  · rw [if_pos hc] at h ⊢
    cases net with
    | sslError => simp at h
    | response status_code body =>
      by_cases hs : status_code ≠ 200
      · simp [hs] at h
      · simp only [hs, if_false] at h ⊢
        simpa using h
  · rw [if_neg hc] at h ⊢
    exact h

/-- C3: after a successful call, a second call strictly before the stored
expiry returns the same token, issues no refresh request and leaves the
session unchanged; and any call issues a refresh request exactly when the
cached token is absent or `now >= expiry`. -/
theorem get_access_token_cache_validity (st : Session) (now now2 : Int)
    (net net2 : RefreshOutcome) (t : String)
    (hsucc : (get_access_token st now net).token = some t)
    (hfresh : now2 < (get_access_token st now net).session.access_token_expired) :
    ((get_access_token (get_access_token st now net).session now2 net2).token = some t
      ∧ (get_access_token (get_access_token st now net).session now2 net2).refresh_requested
          = false
      ∧ (get_access_token (get_access_token st now net).session now2 net2).session
          = (get_access_token st now net).session)
    ∧ (∀ (s : Session) (n : Int) (w : RefreshOutcome),
        (get_access_token s n w).refresh_requested = true
          ↔ (s.access_token = none ∨ n ≥ s.access_token_expired)) := by
  constructor
  · have hcached := get_access_token_token_cached st now net t hsucc
    have hcond : ¬ ((get_access_token st now net).session.access_token = none
        ∨ now2 ≥ (get_access_token st now net).session.access_token_expired) := by
      intro hc
      cases hc with
      | inl hc2 =>
        rw [hcached] at hc2
        exact Option.noConfusion hc2
      | inr hc2 => omega
    have hstep : get_access_token (get_access_token st now net).session now2 net2
        = { token := (get_access_token st now net).session.access_token
            session := (get_access_token st now net).session
            refresh_requested := false } := by
      rw [get_access_token.eq_def, if_neg hcond]
    rw [hstep]
    exact ⟨hcached, rfl, rfl⟩
  · intro s n w
    constructor
    · intro hreq
      by_contra hc
      rw [get_access_token.eq_def, if_neg hc] at hreq
      simp at hreq
    · intro hc
      rw [get_access_token.eq_def, if_pos hc]
      cases w with
      | sslError => rfl
      | response status_code body =>
        by_cases hs : status_code ≠ 200
        · simp [hs]
        · simp [hs]

/-- Witness for C3 at a concrete run: refresh succeeds at time 100 with a
600-second lifetime, and a second call at time 500 serves the cache. -/
theorem get_access_token_cache_validity_witness :
    (get_access_token
        ((get_access_token
          { refresh_token := "r", access_token := none, access_token_expired := 0 }
          100 (RefreshOutcome.response 200
            { access_token := "tok", expires_in := 600 })).session)
        500 RefreshOutcome.sslError).token = some "tok"
    ∧ (get_access_token
        ((get_access_token
          { refresh_token := "r", access_token := none, access_token_expired := 0 }
          100 (RefreshOutcome.response 200
            { access_token := "tok", expires_in := 600 })).session)
        500 RefreshOutcome.sslError).refresh_requested = false := by
  have h := get_access_token_cache_validity
    { refresh_token := "r", access_token := none, access_token_expired := 0 }
    100 500
    (RefreshOutcome.response 200 { access_token := "tok", expires_in := 600 })
    RefreshOutcome.sslError "tok"
    (by simp [get_access_token]) (by norm_num [get_access_token])
  exact ⟨h.1.1, h.1.2.1⟩

/-- C4: on a successful refresh (request issued, status 200), the stored
expiry is exactly `now + expires_in` with no safety margin, and the
`access_token` field of the response body is stored and returned. -/
theorem get_access_token_success (st : Session) (now : Int) (body : TokenResponseBody)
    (hstale : st.access_token = none ∨ now ≥ st.access_token_expired) :
    (get_access_token st now (RefreshOutcome.response 200 body)).token
        = some body.access_token
    ∧ (get_access_token st now (RefreshOutcome.response 200 body)).session.access_token = some body.access_token
    ∧ (get_access_token st now (RefreshOutcome.response 200 body)).session.access_token_expired = now + body.expires_in := by
  rw [get_access_token.eq_def, if_pos hstale]
  exact ⟨rfl, rfl, rfl⟩

/-- Witness for C4: a stale session refreshed at time 50 with a 600-second
lifetime stores expiry 650. -/
theorem get_access_token_success_witness :
    ((get_access_token
        { refresh_token := "r", access_token := none, access_token_expired := 0 }
        50 (RefreshOutcome.response 200
          { access_token := "tok", expires_in := 600 })).session).access_token_expired
      = 650 := by
  have h := get_access_token_success
    { refresh_token := "r", access_token := none, access_token_expired := 0 }
    50 { access_token := "tok", expires_in := 600 } (Or.inl rfl)
  rw [h.2.2]
  norm_num

/-- C5: when a refresh is attempted and fails — SSL transport error or a
non-200 status — the cached token is cleared to `None`, the expiry is reset
to `0`, and the call returns `None`. -/
theorem get_access_token_failure (st : Session) (now : Int) (net : RefreshOutcome)
    (hstale : st.access_token = none ∨ now ≥ st.access_token_expired)
    (hfail : net = RefreshOutcome.sslError
      ∨ ∃ (status_code : Nat) (body : TokenResponseBody),
          net = RefreshOutcome.response status_code body ∧ status_code ≠ 200) :
    (get_access_token st now net).token = none
    ∧ (get_access_token st now net).session.access_token = none
    ∧ (get_access_token st now net).session.access_token_expired = 0 := by
  rw [get_access_token.eq_def, if_pos hstale]
  cases hfail with
  | inl hssl =>
    subst hssl
    exact ⟨rfl, rfl, rfl⟩
  | inr hresp =>
    obtain ⟨status_code, body, hnet, hstatus⟩ := hresp
    subst hnet
    simp [hstatus]

/-- Witness for C5: a 500 from the token endpoint clears the cached token and
expiry. -/
theorem get_access_token_failure_witness :
    ((get_access_token
        { refresh_token := "r", access_token := some "old", access_token_expired := 10 }
        99 (RefreshOutcome.response 500
          { access_token := "x", expires_in := 1 })).session).access_token = none := by
  have h := get_access_token_failure
    { refresh_token := "r", access_token := some "old", access_token_expired := 10 }
    99 (RefreshOutcome.response 500 { access_token := "x", expires_in := 1 })
    (Or.inr (by norm_num))
    (Or.inr ⟨500, { access_token := "x", expires_in := 1 }, rfl, by norm_num⟩)
  exact h.2.1

/-! ## Theorems: Event Bus -/

/-- C7: subscribing a callback twice equals subscribing it once; `trigger x`
invokes each currently-registered callback exactly once with `x` and invokes
nothing else; unsubscribing removes the callback from later triggers;
unsubscribing an unregistered callback changes nothing. -/
theorem event_bus_spec {α β : Type} [DecidableEq α] [DecidableEq β]
    (e : Event α) (c : α) (x : β) :
    Event.subscribe (Event.subscribe e c) c = Event.subscribe e c
    ∧ (∀ c2 : α, c2 ∈ e.callbacks → Multiset.count (c2, x) (Event.trigger e x) = 1)
    ∧ (∀ c2 : α, c2 ∉ e.callbacks → Multiset.count (c2, x) (Event.trigger e x) = 0)
    ∧ (∀ (c2 : α) (y : β), ¬ (c2, y) ∈ Event.trigger e x ∨ y = x)
    ∧ (∀ y : β, Multiset.count (c, y) (Event.trigger (Event.unsubscribe e c) y) = 0)
    ∧ (c ∉ e.callbacks → Event.unsubscribe e c = e) := by
  have hcount : ∀ (s : Finset α) (c2 : α) (y : β),
      Multiset.count (c2, y) (s.val.map (fun callback => (callback, y)))
        = Multiset.count c2 s.val := by
    intro s c2 y
    exact Multiset.count_map_eq_count' (fun callback => (callback, y)) s.val
      (fun a b hab => (Prod.mk.injEq a y b y).mp hab |>.1) c2
  refine ⟨?_, ?_, ?_, ?_, ?_, ?_⟩
  · unfold Event.subscribe
    simp [Finset.insert_idem]
  · intro c2 hmem
    rw [Event.trigger, hcount e.callbacks c2 x]
    exact Multiset.count_eq_one_of_mem e.callbacks.nodup hmem
  · intro c2 hmem
    rw [Event.trigger, hcount e.callbacks c2 x]
    exact Multiset.count_eq_zero_of_not_mem hmem
  · intro c2 y
    by_cases hy : y = x
    · exact Or.inr hy
    · refine Or.inl ?_
      intro hmemy
      rw [Event.trigger, Multiset.mem_map] at hmemy
      obtain ⟨a, _, ha⟩ := hmemy
      exact hy ((Prod.mk.injEq a x c2 y).mp ha).2.symm
  · intro y
    rw [Event.trigger, hcount]
    refine Multiset.count_eq_zero_of_not_mem ?_
    unfold Event.unsubscribe
    simp only [Finset.mem_val]
    exact Finset.not_mem_erase c e.callbacks
  · intro hmem
    unfold Event.unsubscribe
    have : e.callbacks.erase c = e.callbacks := Finset.erase_eq_of_not_mem hmem
    rw [this]

/-- Witness for C7 on a concrete bus holding callbacks `1` and `2`. -/
theorem event_bus_spec_witness :
    Multiset.count ((1 : Nat), "x") (Event.trigger { callbacks := {1, 2} } "x") = 1
    ∧ Multiset.count ((3 : Nat), "x") (Event.trigger { callbacks := {1, 2} } "x") = 0
    ∧ Event.unsubscribe { callbacks := ({1, 2} : Finset Nat) } 3 = { callbacks := {1, 2} } := by
  have h := event_bus_spec { callbacks := ({1, 2} : Finset Nat) } 3 "x"
  exact ⟨h.2.1 1 (by decide), h.2.2.1 3 (by decide), h.2.2.2.2.2 (by decide)⟩

/-! ## Theorems: Subscription Channel Manager -/

/-- C6: starting from a disconnected channel, two subscribe calls on the same
market-data channel open exactly one connection (the second call reuses it)
and send exactly two filter frames, one per call — for quotes, last candles,
order book and trades alike. -/
theorem market_data_double_subscribe {α : Type} [DecidableEq α] (st : BCSPyState α)
    (t1 t2 : Int) (i1 i2 : List Instrument) (tf1 tf2 : String) (d1 d2 : Int) :
    (st.ws_quotes = none →
      (subscribe_quotes (subscribe_quotes st t1 i1) t2 i2).ws_quotes = some st.next_conn
      ∧ (subscribe_quotes (subscribe_quotes st t1 i1) t2 i2).next_conn = st.next_conn + 1
      ∧ (subscribe_quotes (subscribe_quotes st t1 i1) t2 i2).frames_sent
          = st.frames_sent ++ [(st.next_conn, quotes_request t1 i1),
              (st.next_conn, quotes_request t2 i2)])
    ∧ (st.ws_last_candle = none →
      (subscribe_last_candles (subscribe_last_candles st t1 i1 tf1) t2 i2 tf2).ws_last_candle
          = some st.next_conn
      ∧ (subscribe_last_candles (subscribe_last_candles st t1 i1 tf1) t2 i2 tf2).next_conn
          = st.next_conn + 1
      ∧ (subscribe_last_candles (subscribe_last_candles st t1 i1 tf1) t2 i2 tf2).frames_sent
          = st.frames_sent ++ [(st.next_conn, last_candles_request t1 i1 tf1),
              (st.next_conn, last_candles_request t2 i2 tf2)])
    ∧ (st.ws_order_book = none →
      (subscribe_order_book (subscribe_order_book st t1 i1 d1) t2 i2 d2).ws_order_book
          = some st.next_conn
      ∧ (subscribe_order_book (subscribe_order_book st t1 i1 d1) t2 i2 d2).next_conn
          = st.next_conn + 1
      ∧ (subscribe_order_book (subscribe_order_book st t1 i1 d1) t2 i2 d2).frames_sent
          = st.frames_sent ++ [(st.next_conn, order_book_request t1 i1 d1),
              (st.next_conn, order_book_request t2 i2 d2)])
    ∧ (st.ws_trades = none →
      (subscribe_trades (subscribe_trades st t1 i1) t2 i2).ws_trades = some st.next_conn
      ∧ (subscribe_trades (subscribe_trades st t1 i1) t2 i2).next_conn = st.next_conn + 1
      ∧ (subscribe_trades (subscribe_trades st t1 i1) t2 i2).frames_sent
          = st.frames_sent ++ [(st.next_conn, trades_request t1 i1),
              (st.next_conn, trades_request t2 i2)]) := by
  refine ⟨?_, ?_, ?_, ?_⟩
  · intro h
    simp [subscribe_quotes, h]
  · intro h
    simp [subscribe_last_candles, h]
  · intro h
    simp [subscribe_order_book, h]
  · intro h
    simp [subscribe_trades, h]

/-- Witness for C6: two quote subscriptions from the fresh instance use one
connection (handle 0) and send two frames. -/
theorem market_data_double_subscribe_witness :
    (subscribe_quotes (subscribe_quotes init_state 0 [{ classCode := "TQBR", ticker := "SBER" }])
        0 [{ classCode := "SPBFUT", ticker := "CNYRUBF" }]).ws_quotes = some 0
    ∧ (subscribe_quotes (subscribe_quotes init_state 0 [{ classCode := "TQBR", ticker := "SBER" }])
        0 [{ classCode := "SPBFUT", ticker := "CNYRUBF" }]).next_conn = 1
    ∧ (subscribe_quotes (subscribe_quotes init_state 0 [{ classCode := "TQBR", ticker := "SBER" }])
        0 [{ classCode := "SPBFUT", ticker := "CNYRUBF" }]).frames_sent
        = [(0, quotes_request 0 [{ classCode := "TQBR", ticker := "SBER" }]),
           (0, quotes_request 0 [{ classCode := "SPBFUT", ticker := "CNYRUBF" }])] := by
  have h := (market_data_double_subscribe init_state 0 0
    [{ classCode := "TQBR", ticker := "SBER" }]
    [{ classCode := "SPBFUT", ticker := "CNYRUBF" }] "M1" "M1" 20 20).1 rfl
  exact ⟨h.1, h.2.1, h.2.2⟩

/-! ## Theorems: Receive loop (`_subscribe_thread`) -/

/-- C8 counterexample: the quotes channel is connected (handle 0) and the
receive loop terminates on a remote close, yet the connection handle is NOT
set to null — `ws_quotes` still holds the dead handle, so the channel does
not become disconnected. -/
theorem receive_loop_close_keeps_handle :
    (subscribe_thread { callbacks := ({7} : Finset Nat) }
      { init_state with ws_quotes := some 0, on_quote := { callbacks := {7} } }
      ([RecvEvent.closed] : List (RecvEvent Nat))).1.ws_quotes ≠ none := by
  intro h
  simp [subscribe_thread, init_state] at h

/-- C8 (amended): termination of the receive loop — remote close, parse
error, or end of input — leaves the whole instance state unchanged: the
connection handle is NOT cleared (the channel still appears connected, so a
later subscribe call will not reconnect), and the event-bus registrations
are left intact. -/
theorem receive_loop_leaves_state {α J : Type} [DecidableEq α] (bus : Event α)
    (st : BCSPyState α) (events : List (RecvEvent J)) :
    (subscribe_thread bus st events).1 = st := by
  induction events with
  | nil => rfl
  | cons e rest ih =>
    cases e with
    | data parsed => simpa [subscribe_thread] using ih
    | parseError => rfl
    | closed => rfl

/-- C9: unsubscribing any of the nine channels while it is not connected is a
no-op: no close is performed and the state is unchanged. -/
theorem unsubscribe_disconnected_noop {α : Type} [DecidableEq α] (st : BCSPyState α) :
    (st.ws_limits = none → unsubscribe_limits st = st)
    ∧ (st.ws_portfolio = none → unsubscribe_portfolio st = st)
    ∧ (st.ws_executions = none → unsubscribe_executions st = st)
    ∧ (st.ws_transactions = none → unsubscribe_transactions st = st)
    ∧ (st.ws_quotes = none → unsubscribe_quotes st = st)
    ∧ (st.ws_last_candle = none → unsubscribe_last_candles st = st)
    ∧ (st.ws_order_book = none → unsubscribe_order_book st = st)
    ∧ (st.ws_trades = none → unsubscribe_trades st = st)
    ∧ (st.ws_margins = none → unsubscribe_margins st = st) := by
  refine ⟨?_, ?_, ?_, ?_, ?_, ?_, ?_, ?_, ?_⟩
  · intro h
    simp [unsubscribe_limits, h]
  · intro h
    simp [unsubscribe_portfolio, h]
  · intro h
    simp [unsubscribe_executions, h]
  · intro h
    simp [unsubscribe_transactions, h]
  · intro h
    simp [unsubscribe_quotes, h]
  · intro h
    simp [unsubscribe_last_candles, h]
  · intro h
    simp [unsubscribe_order_book, h]
  · intro h
    simp [unsubscribe_trades, h]
  · intro h
    simp [unsubscribe_margins, h]

/-- Witness for C9: on the fresh (fully disconnected) instance every
unsubscribe call is the identity. -/
theorem unsubscribe_disconnected_noop_witness :
    unsubscribe_limits init_state = init_state
    ∧ unsubscribe_quotes init_state = init_state
    ∧ unsubscribe_margins init_state = init_state := by
  have h := unsubscribe_disconnected_noop init_state
  exact ⟨h.1 rfl, h.2.2.2.2.1 rfl, h.2.2.2.2.2.2.2.2 rfl⟩

/-! ## Theorems: Order operations and their default `client_order_id` -/

/-- C10 counterexample: the defaults are three separate `uuid4()` draws, so a
`create_order` call and a `cancel_order` call that both omit
`client_order_id` need not carry the identical `clientOrderId` — with a uuid
stream whose draws differ, they differ. -/
theorem default_client_order_id_differs_across_operations :
    (create_order_params (class_defaults (fun n => toString n))
        1 1 1 "SBER" "TQBR" (none : Option Unit) none).clientOrderId
      ≠ (cancel_order_params (class_defaults (fun n => toString n))
        "orig" none).clientOrderId := by
  decide

/-- C10 (amended): each of the three operations has its own fixed default
`client_order_id`, computed once at class definition (one uuid draw per
operation, in source order); any two calls of the same operation in the same
process that omit `client_order_id` carry that operation's identical default
value. -/
theorem default_client_order_id_fixed_per_operation {P : Type} (uuid4 : Nat → String)
    (s1 ot1 q1 : Int) (tk1 cc1 : String) (p1 : Option P)
    (s2 ot2 q2 : Int) (tk2 cc2 : String) (p2 : Option P)
    (o1 o2 : String) (pe1 pe2 : P) (qe1 qe2 : Int) (ce1 ce2 : String) :
    (create_order_params (class_defaults uuid4) s1 ot1 q1 tk1 cc1 p1 none).clientOrderId
        = (create_order_params (class_defaults uuid4) s2 ot2 q2 tk2 cc2 p2 none).clientOrderId
    ∧ (create_order_params (class_defaults uuid4) s1 ot1 q1 tk1 cc1 p1 none).clientOrderId
        = uuid4 0
    ∧ (cancel_order_params (class_defaults uuid4) o1 none).clientOrderId
        = (cancel_order_params (class_defaults uuid4) o2 none).clientOrderId
    ∧ (cancel_order_params (class_defaults uuid4) o1 none).clientOrderId = uuid4 1
    ∧ (edit_order_params (class_defaults uuid4) o1 pe1 qe1 ce1 none).clientOrderId
        = (edit_order_params (class_defaults uuid4) o2 pe2 qe2 ce2 none).clientOrderId
    ∧ (edit_order_params (class_defaults uuid4) o1 pe1 qe1 ce1 none).clientOrderId
        = uuid4 2 := by
  exact ⟨rfl, rfl, rfl, rfl, rfl, rfl⟩
